import Mathlib

/-!
Shallow embedding of the simulation core of `llm-text-adventure`
(`src/model.rs` data model and the tool dispatcher of `src/agent.rs`).

Conventions of the embedding:
* Rust `HashMap<K, V>` becomes an association list `List (K × V)` with
  first-match lookup; `insert` replaces the binding in place, `get_mut`
  followed by a field assignment becomes `alUpdate` (a no-op when the key
  is absent, exactly like `if let Some(x) = map.get_mut(k)`).
* `u32`/`usize` become `Nat`; Rust `saturating_sub` and the truncation of
  `Nat` subtraction agree.  The one unguarded `u32` subtraction of the
  source (`effect.duration - 1` in the round-wrap branch of
  `execute_end_turn`, which panics in a debug build when `duration = 0`)
  is modelled by truncated subtraction and is discussed at its use site.
* `i32` coordinates become `Int`.
* Fallible JSON field extraction (`args["f"].as_str().ok_or(...)`) is
  modelled by `Option`-typed argument fields; the randomness of
  `rand::random` and the network-backed location generator are oracle
  parameters (`rng : Nat → Nat`, `roll : Nat`, `gen : Except String Location`).
* Each tool handler returns the (possibly mutated) world together with the
  `Result`, so that a hypothetical "mutate, then fail" behaviour would be
  observable; the Rust handlers mutate `self.world` in place.
-/

namespace Adventure

/-- Lookup in an association-list map: first binding wins (models `HashMap::get`). -/
def alGet {K V : Type} [DecidableEq K] : List (K × V) → K → Option V
  | [], _ => none
  | (k0, v0) :: rest, k => if k0 = k then some v0 else alGet rest k

/-- Key membership (models `HashMap::contains_key`). -/
def alContains {K V : Type} [DecidableEq K] (m : List (K × V)) (k : K) : Bool :=
  (alGet m k).isSome

/-- Insert or replace a binding (models `HashMap::insert`). -/
def alInsert {K V : Type} [DecidableEq K] : List (K × V) → K → V → List (K × V)
  | [], k, v => [(k, v)]
  | (k0, v0) :: rest, k, v =>
    if k0 = k then (k, v) :: rest else (k0, v0) :: alInsert rest k v

/-- Update the binding of `k` when present, otherwise do nothing
(models `if let Some(x) = map.get_mut(k) { mutate x }`). -/
def alUpdate {K V : Type} [DecidableEq K] : List (K × V) → K → (V → V) → List (K × V)
  | [], _, _ => []
  | (k0, v0) :: rest, k, f =>
    if k0 = k then (k0, f v0) :: rest else (k0, v0) :: alUpdate rest k f

/-- Remove a binding (models `HashMap::remove`). -/
def alRemove {K V : Type} [DecidableEq K] (m : List (K × V)) (k : K) : List (K × V) :=
  m.filter (fun p => decide (p.1 ≠ k))

/-- Apply `f` to every value (models iteration over `map.values_mut()`). -/
def alMapVals {K V : Type} (f : V → V) (m : List (K × V)) : List (K × V) :=
  m.map (fun p => (p.1, f p.2))

/-- Item type tag (`model.rs`, `enum ItemType`). -/
inductive ItemType
  | Weapon
  | Armor
  | Consumable
  | Tool
  | Key
  | Container
  | QuestItem
  | Material
deriving DecidableEq

/-- Item state tag (`model.rs`, `enum ItemState`). -/
inductive ItemState
  | Normal
  | Equipped
  | Damaged (durability max_durability : Nat)
  | Consumed (charges max_charges : Nat)
  | Locked (key_id : Option String)
  | Open (contents : List String)
deriving DecidableEq

/-- Item property bundle (`model.rs`, `struct ItemProperties`). -/
structure ItemProperties where
  damage : Option Nat
  defense : Option Nat
  value : Option Nat
  weight : Option Nat
  carryable : Bool
  usable : Bool
  equip_slot : Option String
  status_effects : List String
deriving DecidableEq

/-- The `Default` impl for `ItemProperties` in `model.rs`. -/
def ItemProperties.default : ItemProperties :=
  { damage := none, defense := none, value := none, weight := none,
    carryable := true, usable := false, equip_slot := none, status_effects := [] }

/-- Item record (`model.rs`, `struct Item`). -/
structure Item where
  id : String
  name : String
  description : String
  item_type : ItemType
  state : ItemState
  properties : ItemProperties
deriving DecidableEq

/-- Status-effect type tag (`model.rs`, `enum StatusType`). -/
inductive StatusType
  | Poison
  | Stunned
  | Burning
  | Frozen
  | Bleeding
deriving DecidableEq

/-- Active status effect on a combatant (`model.rs`, `struct StatusEffect`). -/
structure StatusEffect where
  effect_type : StatusType
  duration : Nat
  severity : Nat
deriving DecidableEq

/-- Combat participant (`model.rs`, `struct Combatant`). -/
structure Combatant where
  id : String
  is_player : Bool
  hp : Nat
  max_hp : Nat
  weapon_id : Option String
  armor_id : Option String
  initiative : Nat
  status_effects : List StatusEffect
  temp_defense : Nat
deriving DecidableEq

/-- Combat sub-state (`model.rs`, `struct CombatState`). -/
structure CombatState where
  active : Bool
  combatants : List Combatant
  current_turn_index : Nat
  round_number : Nat
deriving DecidableEq

/-- The `Default` impl derived for `CombatState` in `model.rs`. -/
def CombatState.default : CombatState :=
  { active := false, combatants := [], current_turn_index := 0, round_number := 0 }

/-- Player record (`model.rs`, `struct Player`). -/
structure Player where
  inventory : List String
  money : Nat
deriving DecidableEq

/-- The `Default` impl derived for `Player` in `model.rs`. -/
def Player.default : Player := { inventory := [], money := 0 }

/-- Grid location (`model.rs`, `struct Location`). -/
structure Location where
  name : String
  description : String
  items : List String
  actors : List String
  exits : List (String × Option (Int × Int))
  cached_image_path : Option String
  image_prompt : String
  visited : Bool
deriving DecidableEq

/-- Persistent NPC (`model.rs`, `struct Actor`). -/
structure Actor where
  id : String
  name : String
  description : String
  current_pos : Int × Int
  inventory : List String
  money : Nat
deriving DecidableEq

/-- World model (`model.rs`, `struct WorldState`). -/
structure WorldState where
  current_pos : Int × Int
  locations : List ((Int × Int) × Location)
  actors : List (String × Actor)
  items : List (String × Item)
  player : Player
  combat : CombatState
  max_items : Nat
  max_combatants : Nat
deriving DecidableEq

/-- `WorldState::new` of `model.rs`. -/
def WorldState.new : WorldState :=
  { current_pos := (0, 0), locations := [], actors := [], items := [],
    player := Player.default, combat := CombatState.default,
    max_items := 20, max_combatants := 4 }

/-- The `state` JSON argument of `create_item` as probed by
`execute_create_item`: a string, an object with a `Damaged` key, an object
with a `Consumed` key, or anything else. -/
inductive StateArg
  | str (s : String)
  | damaged (durability max_durability : Option Nat)
  | consumed (charges max_charges : Option Nat)
  | other
deriving DecidableEq

/-- Decoding of the `state` argument (`agent.rs`, `execute_create_item`). -/
def parseStateArg : Option StateArg → ItemState
  | none => .Normal
  | some (.str s) =>
    if s = "Normal" then .Normal else if s = "Equipped" then .Equipped else .Normal
  | some (.damaged d md) => .Damaged (d.getD 10) (md.getD 10)
  | some (.consumed c mc) => .Consumed (c.getD 1) (mc.getD 1)
  | some .other => .Normal

/-- The `properties` JSON argument of `create_item`: each field as the
optional value the handler probes for. -/
structure PropsArg where
  damage : Option Nat
  defense : Option Nat
  value : Option Nat
  weight : Option Nat
  carryable : Option Bool
  usable : Option Bool
  equip_slot : Option String
  status_effects : Option (List (Option String))
deriving DecidableEq

/-- Sequence a list of options (models `Iterator::collect` into
`Option<Vec<String>>`). -/
def allSome {α : Type} : List (Option α) → Option (List α)
  | [] => some []
  | none :: _ => none
  | some a :: rest => (allSome rest).map (fun l => a :: l)

/-- Decoding of the `properties` argument (`agent.rs`, `execute_create_item`). -/
def parsePropsArg : Option PropsArg → ItemProperties
  | none => ItemProperties.default
  | some p =>
    { damage := p.damage, defense := p.defense, value := p.value, weight := p.weight,
      carryable := p.carryable.getD true, usable := p.usable.getD false,
      equip_slot := p.equip_slot,
      status_effects :=
        match p.status_effects.bind allSome with
        | some l => l
        | none => [] }

/-- Decoding of the `item_type` argument (`agent.rs`, `execute_create_item`). -/
def parseItemType : String → Option ItemType
  | "Weapon" => some .Weapon
  | "Armor" => some .Armor
  | "Consumable" => some .Consumable
  | "Tool" => some .Tool
  | "Key" => some .Key
  | "Container" => some .Container
  | "QuestItem" => some .QuestItem
  | "Material" => some .Material
  | _ => none

/-- Arguments of `create_item`. -/
structure CreateItemArgs where
  id : Option String
  name : Option String
  description : Option String
  item_type : Option String
  state : Option StateArg
  properties : Option PropsArg

/-- Arguments carrying a single `item_id` field. -/
structure ItemIdArgs where
  item_id : Option String

/-- Arguments carrying a single `actor_id` field. -/
structure ActorIdArgs where
  actor_id : Option String

/-- Arguments carrying a single `text` field. -/
structure TextArgs where
  text : Option String

/-- Arguments of `combine_items`. -/
structure CombineArgs where
  item1_id : Option String
  item2_id : Option String
  result_id : Option String

/-- Arguments of the container tools. -/
structure ContainerArgs where
  container_id : Option String
  item_id : Option String

/-- Arguments of `move_to`. -/
structure MoveToArgs where
  direction : Option String

/-- Arguments of `start_combat`; the elements of the JSON array may fail
`as_str`, hence `Option String` elements. -/
structure StartCombatArgs where
  enemy_ids : Option (List (Option String))

/-- Arguments of `attack_actor`; `weapon_id` is optional in the handler. -/
structure AttackArgs where
  attacker_id : Option String
  target_id : Option String
  weapon_id : Option String

/-- Arguments of `use_item_in_combat`. -/
structure UseItemInCombatArgs where
  user_id : Option String
  item_id : Option String

/-- Arguments of `inspect_object`. -/
structure ObjectIdArgs where
  object_id : Option String

/-- `Agent::execute_create_item` (`agent.rs`). -/
def execute_create_item (w : WorldState) (args : CreateItemArgs) :
    WorldState × Except String String :=
  match args.id with
  | none => (w, .error "Missing id")
  | some id =>
    if alContains w.items id then (w, .error s!"Item {id} already exists")
    else
      match args.item_type with
      | none => (w, .error "Missing item_type")
      | some item_type_str =>
        match parseItemType item_type_str with
        | none => (w, .error s!"Unknown item_type: {item_type_str}")
        | some item_type =>
          let state := parseStateArg args.state
          let props := parsePropsArg args.properties
          let item : Item :=
            { id := id, name := args.name.getD id,
              description := args.description.getD "",
              item_type := item_type, state := state, properties := props }
          ({ w with items := alInsert w.items id item }, .ok s!"Created item: {id}")

/-- `Agent::execute_add_item_to_inventory` (`agent.rs`). -/
def execute_add_item_to_inventory (w : WorldState) (args : ItemIdArgs) :
    WorldState × Except String String :=
  match args.item_id with
  | none => (w, .error "Missing item_id")
  | some item_id =>
    let w1 :=
      if w.player.inventory.contains item_id then w
      else { w with player := { w.player with inventory := w.player.inventory ++ [item_id] } }
    (w1, .ok s!"Added {item_id} to inventory")

/-- `Agent::execute_remove_item_from_inventory` (`agent.rs`). -/
def execute_remove_item_from_inventory (w : WorldState) (args : ItemIdArgs) :
    WorldState × Except String String :=
  match args.item_id with
  | none => (w, .error "Missing item_id")
  | some item_id =>
    ({ w with player :=
        { w.player with inventory := w.player.inventory.filter (fun id => id != item_id) } },
     .ok s!"Removed {item_id} from inventory")

/-- `Agent::execute_add_item_to_location` (`agent.rs`). -/
def execute_add_item_to_location (w : WorldState) (args : ItemIdArgs) :
    WorldState × Except String String :=
  match args.item_id with
  | none => (w, .error "Missing item_id")
  | some item_id =>
    match alGet w.locations w.current_pos with
    | none => (w, .error "Current location not found")
    | some _ =>
      ({ w with locations := alUpdate w.locations w.current_pos (fun loc =>
          if loc.items.contains item_id then loc
          else { loc with items := loc.items ++ [item_id] }) },
       .ok s!"Added {item_id} to current location")

/-- `Agent::execute_remove_item_from_location` (`agent.rs`). -/
def execute_remove_item_from_location (w : WorldState) (args : ItemIdArgs) :
    WorldState × Except String String :=
  match args.item_id with
  | none => (w, .error "Missing item_id")
  | some item_id =>
    match alGet w.locations w.current_pos with
    | none => (w, .error "Current location not found")
    | some _ =>
      ({ w with locations := alUpdate w.locations w.current_pos (fun loc =>
          { loc with items := loc.items.filter (fun id => id != item_id) }) },
       .ok s!"Removed {item_id} from current location")

/-- `Agent::execute_use_item` (`agent.rs`). -/
def execute_use_item (w : WorldState) (args : ItemIdArgs) :
    WorldState × Except String String :=
  match args.item_id with
  | none => (w, .error "Missing item_id")
  | some item_id =>
    let w1 :=
      match alGet w.items item_id with
      | none => w
      | some item =>
        if item.properties.usable then
          match item.state with
          | .Consumed charges max_charges =>
            if 1 < charges then
              { w with items := alUpdate w.items item_id (fun it =>
                  { it with state := .Consumed (charges - 1) max_charges }) }
            else
              { w with player :=
                  { w.player with inventory := w.player.inventory.filter (fun id => id != item_id) } }
          | _ => w
        else w
    (w1, .ok s!"Used item: {item_id}")

/-- `Agent::execute_equip_item` (`agent.rs`). -/
def execute_equip_item (w : WorldState) (args : ItemIdArgs) :
    WorldState × Except String String :=
  match args.item_id with
  | none => (w, .error "Missing item_id")
  | some item_id =>
    ({ w with items := alUpdate w.items item_id (fun it =>
        if it.properties.equip_slot.isSome then { it with state := .Equipped } else it) },
     .ok s!"Equipped item: {item_id}")

/-- `Agent::execute_unequip_item` (`agent.rs`). -/
def execute_unequip_item (w : WorldState) (args : ItemIdArgs) :
    WorldState × Except String String :=
  match args.item_id with
  | none => (w, .error "Missing item_id")
  | some item_id =>
    ({ w with items := alUpdate w.items item_id (fun it =>
        if it.state = .Equipped then { it with state := .Normal } else it) },
     .ok s!"Unequipped item: {item_id}")

/-- `Agent::execute_combine_items` (`agent.rs`). -/
def execute_combine_items (w : WorldState) (args : CombineArgs) :
    WorldState × Except String String :=
  match args.item1_id with
  | none => (w, .error "Missing item1_id")
  | some item1_id =>
    match args.item2_id with
    | none => (w, .error "Missing item2_id")
    | some item2_id =>
      match args.result_id with
      | none => (w, .error "Missing result_id")
      | some result_id =>
        let w1 := { w with
          player := { w.player with inventory :=
            w.player.inventory.filter (fun id => id != item1_id && id != item2_id) },
          locations := alMapVals (fun loc =>
            { loc with items := loc.items.filter (fun id => id != item1_id && id != item2_id) })
            w.locations }
        let w2 :=
          match alGet w1.items result_id with
          | some result_item =>
            { w1 with items := alInsert w1.items result_id result_item,
                      player := { w1.player with inventory := w1.player.inventory ++ [result_id] } }
          | none => w1
        (w2, .ok s!"Combined {item1_id} and {item2_id} into {result_id}")

/-- `Agent::execute_break_item` (`agent.rs`). -/
def execute_break_item (w : WorldState) (args : ItemIdArgs) :
    WorldState × Except String String :=
  match args.item_id with
  | none => (w, .error "Missing item_id")
  | some item_id =>
    ({ w with
        player := { w.player with inventory := w.player.inventory.filter (fun id => id != item_id) },
        locations := alMapVals (fun loc =>
          { loc with items := loc.items.filter (fun id => id != item_id) }) w.locations,
        items := alRemove w.items item_id },
     .ok s!"Broke item: {item_id}")

/-- `Agent::execute_add_item_to_container` (`agent.rs`). -/
def execute_add_item_to_container (w : WorldState) (args : ContainerArgs) :
    WorldState × Except String String :=
  match args.container_id with
  | none => (w, .error "Missing container_id")
  | some container_id =>
    match args.item_id with
    | none => (w, .error "Missing item_id")
    | some item_id =>
      ({ w with items := alUpdate w.items container_id (fun c =>
          match c.state with
          | .Open contents => { c with state := .Open (contents ++ [item_id]) }
          | _ => c) },
       .ok s!"Added {item_id} to container {container_id}")

/-- `Agent::execute_remove_item_from_container` (`agent.rs`). -/
def execute_remove_item_from_container (w : WorldState) (args : ContainerArgs) :
    WorldState × Except String String :=
  match args.container_id with
  | none => (w, .error "Missing container_id")
  | some container_id =>
    match args.item_id with
    | none => (w, .error "Missing item_id")
    | some item_id =>
      ({ w with items := alUpdate w.items container_id (fun c =>
          match c.state with
          | .Open contents => { c with state := .Open (contents.filter (fun id => id != item_id)) }
          | _ => c) },
       .ok s!"Removed {item_id} from container {container_id}")

/-- `get_opposite_direction` (`agent.rs`). -/
def get_opposite_direction : String → String
  | "north" => "south"
  | "south" => "north"
  | "east" => "west"
  | "west" => "east"
  | d => d

/-- The target coordinate of a direction string, `none` for an invalid
direction (the `match direction` in `execute_move_to`). -/
def dirTarget (pos : Int × Int) : String → Option (Int × Int)
  | "north" => some (pos.1, pos.2 + 1)
  | "south" => some (pos.1, pos.2 - 1)
  | "east" => some (pos.1 + 1, pos.2)
  | "west" => some (pos.1 - 1, pos.2)
  | _ => none

/-- The fallback location inserted by `execute_move_to` when generation
fails (`agent.rs`, lines 636-645). -/
def fallbackLocation (target_pos : Int × Int) : Location :=
  { name := s!"Mysterious area ({target_pos.1}, {target_pos.2})",
    description := "A mysterious place that appeared suddenly.",
    items := [], actors := [], exits := [],
    cached_image_path := none,
    image_prompt := "A mysterious location with undefined characteristics.",
    visited := true }

/-- The tail of `execute_move_to`: set the player position, mark the
target visited, and report the move (`agent.rs`, lines 660-668). -/
def finishMove (w : WorldState) (target_pos : Int × Int) (direction : String) :
    WorldState × Except String String :=
  let w1 := { w with current_pos := target_pos,
                     locations := alUpdate w.locations target_pos (fun loc =>
                       { loc with visited := true }) }
  let loc_name :=
    match alGet w1.locations target_pos with
    | some l => l.name
    | none => "Unknown"
  (w1, .ok s!"Moved {direction} to ({target_pos.1}, {target_pos.2}) - {loc_name}")

/-- `Agent::execute_move_to` (`agent.rs`); `gen` is the outcome of the
`generate_location` call to the LLM collaborator. -/
def execute_move_to (w : WorldState) (args : MoveToArgs)
    (gen : Except String Location) : WorldState × Except String String :=
  match args.direction with
  | none => (w, .error "Missing direction")
  | some direction =>
    match dirTarget w.current_pos direction with
    | none => (w, .error "Invalid direction")
    | some target_pos =>
      let opposite := get_opposite_direction direction
      if alContains w.locations target_pos then
        finishMove w target_pos direction
      else
        match alGet w.locations w.current_pos with
        | none => (w, .error "Current location not found")
        | some _ =>
          let newLoc :=
            match gen with
            | .ok location => { location with visited := true }
            | .error _ => fallbackLocation target_pos
          let w1 := { w with locations := alInsert w.locations target_pos newLoc }
          let w2 := { w1 with locations := alUpdate w1.locations w.current_pos (fun loc =>
            { loc with exits := alInsert loc.exits direction (some target_pos) }) }
          let w3 := { w2 with locations := alUpdate w2.locations target_pos (fun loc =>
            { loc with exits := alInsert loc.exits opposite (some w.current_pos) }) }
          finishMove w3 target_pos direction

/-- `Agent::execute_update_location_description` (`agent.rs`). -/
def execute_update_location_description (w : WorldState) (args : TextArgs) :
    WorldState × Except String String :=
  match args.text with
  | none => (w, .error "Missing text")
  | some text =>
    match alGet w.locations w.current_pos with
    | none => (w, .error "Current location not found")
    | some _ =>
      ({ w with locations := alUpdate w.locations w.current_pos (fun loc =>
          { loc with description := text }) },
       .ok "Location description updated")

/-- `Agent::execute_generate_turn_narrative` (`agent.rs`); the narrative is
stored on the `Agent`, not in the world model, so the world is unchanged. -/
def execute_generate_turn_narrative (w : WorldState) (args : TextArgs) :
    WorldState × Except String String :=
  match args.text with
  | none => (w, .error "Missing text")
  | some _ => (w, .ok "Turn narrative generated")

/-- `Agent::execute_inspect_object` (`agent.rs`); read-only. -/
def execute_inspect_object (w : WorldState) (args : ObjectIdArgs) :
    WorldState × Except String String :=
  match args.object_id with
  | none => (w, .error "Missing object_id")
  | some id =>
    match alGet w.items id with
    | some item => (w, .ok s!"Item: {item.name}")
    | none =>
      match alGet w.actors id with
      | some actor => (w, .ok s!"Actor: {actor.name}")
      | none => (w, .error s!"Object {id} not found")

/-- First index and element satisfying `p` (models `Iterator::position`
together with the element found there). -/
def position {α : Type} (p : α → Bool) : List α → Option (Nat × α)
  | [] => none
  | a :: rest =>
    if p a then some (0, a) else (position p rest).map (fun q => (q.1 + 1, q.2))

/-- Stable descending insertion by initiative: a later element is placed
after every earlier element of greater or equal initiative. -/
def insertDesc (x : Combatant) : List Combatant → List Combatant
  | [] => [x]
  | y :: ys =>
    if x.initiative ≤ y.initiative then y :: insertDesc x ys else x :: y :: ys

/-- Models `combatants.sort_by(|a, b| b.initiative.cmp(&a.initiative))`:
a stable sort into descending initiative order. -/
def sortByInitiativeDesc (cs : List Combatant) : List Combatant :=
  cs.foldl (fun acc c => insertDesc c acc) []

/-- The player combatant pushed by `execute_start_combat`; `rng 0` is the
first `rand::random::<u32>()` draw. -/
def playerCombatant (rng : Nat → Nat) : Combatant :=
  { id := "player", is_player := true, hp := 100, max_hp := 100,
    weapon_id := none, armor_id := none, initiative := rng 0 % 20 + 1,
    status_effects := [], temp_defense := 0 }

/-- The enemy-building loop of `execute_start_combat`: ids that fail
`as_str` abort with an error, ids absent from the actor registry are
silently skipped, and a registered actor away from the current position
aborts; `rng k` is the k-th random draw (the player consumed draw 0). -/
def buildEnemies (w : WorldState) (rng : Nat → Nat) :
    List (Option String) → Nat → Except String (List Combatant)
  | [], _ => .ok []
  | none :: _, _ => .error "Invalid enemy_id"
  | some enemy_id :: rest, k =>
    match alGet w.actors enemy_id with
    | none => buildEnemies w rng rest k
    | some actor =>
      if actor.current_pos ≠ w.current_pos then
        .error s!"Enemy {enemy_id} is not at current location"
      else
        match buildEnemies w rng rest (k + 1) with
        | .error e => .error e
        | .ok es =>
          .ok ({ id := enemy_id, is_player := false, hp := 50, max_hp := 50,
                 weapon_id := none, armor_id := none, initiative := rng k % 20 + 1,
                 status_effects := [], temp_defense := 0 } :: es)

/-- `Agent::execute_start_combat` (`agent.rs`). -/
def execute_start_combat (w : WorldState) (args : StartCombatArgs) (rng : Nat → Nat) :
    WorldState × Except String String :=
  match args.enemy_ids with
  | none => (w, .error "Missing enemy_ids array")
  | some enemy_ids_val =>
    if w.combat.active then (w, .error "Combat is already active")
    else
      let total_combatants := 1 + enemy_ids_val.length
      if w.max_combatants < total_combatants then
        (w, .error s!"Too many combatants (max {w.max_combatants})")
      else
        match buildEnemies w rng enemy_ids_val 1 with
        | .error e => (w, .error e)
        | .ok enemies =>
          let combatants := sortByInitiativeDesc (playerCombatant rng :: enemies)
          ({ w with combat :=
              { active := true, combatants := combatants,
                current_turn_index := 0, round_number := 1 } },
           .ok s!"Started combat with {enemy_ids_val.length} enemies")

/-- `Agent::execute_attack_actor` (`agent.rs`). -/
def execute_attack_actor (w : WorldState) (args : AttackArgs) :
    WorldState × Except String String :=
  match args.attacker_id with
  | none => (w, .error "Missing attacker_id")
  | some attacker_id =>
    match args.target_id with
    | none => (w, .error "Missing target_id")
    | some target_id =>
      if !w.combat.active then (w, .error "Combat is not active")
      else
        match position (fun c => c.id == attacker_id) w.combat.combatants with
        | none => (w, .error "Attacker not in combat")
        | some _ =>
          match position (fun c => c.id == target_id) w.combat.combatants with
          | none => (w, .error "Target not in combat")
          | some (target_idx, target) =>
            let weapon_damage :=
              match args.weapon_id with
              | some weapon_id => ((alGet w.items weapon_id).bind (fun i => i.properties.damage)).getD 5
              | none => 5
            let armor_defense :=
              ((target.armor_id.bind (fun id => alGet w.items id)).bind
                (fun i => i.properties.defense)).getD 0
            let total_defense := armor_defense + target.temp_defense
            let damage := weapon_damage - total_defense
            let final_damage := if damage = 0 then 1 else damage
            let target1 := { target with hp := target.hp - final_damage }
            let combat1 := { w.combat with combatants := w.combat.combatants.set target_idx target1 }
            ({ w with combat := combat1 },
             .ok s!"{attacker_id} attacked {target_id} for {final_damage} damage")

/-- `Agent::execute_defend` (`agent.rs`). -/
def execute_defend (w : WorldState) (args : ActorIdArgs) :
    WorldState × Except String String :=
  match args.actor_id with
  | none => (w, .error "Missing actor_id")
  | some actor_id =>
    if !w.combat.active then (w, .error "Combat is not active")
    else
      match position (fun c => c.id == actor_id) w.combat.combatants with
      | none => (w, .error "Actor not in combat")
      | some (combatant_idx, c) =>
        let c1 := { c with temp_defense := c.temp_defense + 5 }
        let combat1 := { w.combat with combatants := w.combat.combatants.set combatant_idx c1 }
        ({ w with combat := combat1 },
         .ok s!"{actor_id} is defending (+5 temp defense)")

/-- `Agent::execute_flee` (`agent.rs`); `roll` is the
`rand::random::<u32>()` draw. -/
def execute_flee (w : WorldState) (args : ActorIdArgs) (roll : Nat) :
    WorldState × Except String String :=
  match args.actor_id with
  | none => (w, .error "Missing actor_id")
  | some actor_id =>
    if !w.combat.active then (w, .error "Combat is not active")
    else
      if 10 ≤ roll % 20 then
        let combatants := w.combat.combatants.filter (fun c => c.id != actor_id)
        let combat1 := { w.combat with combatants := combatants }
        let combat2 :=
          if !(combatants.any (fun c => c.is_player)) || !(combatants.any (fun c => !c.is_player)) then
            { combat1 with active := false }
          else combat1
        ({ w with combat := combat2 }, .ok s!"{actor_id} fled successfully!")
      else
        (w, .ok s!"{actor_id} failed to flee")

/-- `Agent::execute_use_item_in_combat` (`agent.rs`). -/
def execute_use_item_in_combat (w : WorldState) (args : UseItemInCombatArgs) :
    WorldState × Except String String :=
  match args.user_id with
  | none => (w, .error "Missing user_id")
  | some user_id =>
    match args.item_id with
    | none => (w, .error "Missing item_id")
    | some item_id =>
      if !w.combat.active then (w, .error "Combat is not active")
      else
        match position (fun c => c.id == user_id) w.combat.combatants with
        | none => (w, .error "User not in combat")
        | some (combatant_idx, user) =>
          if !(w.player.inventory.contains item_id) then
            (w, .error s!"Item {item_id} not in inventory")
          else
            match alGet w.items item_id with
            | none => (w, .error s!"Item {item_id} not found")
            | some item =>
              if item.properties.usable then
                let w1 :=
                  match item.state with
                  | .Consumed charges max_charges =>
                    if 1 < charges then
                      { w with items := alUpdate w.items item_id (fun it =>
                          { it with state := .Consumed (charges - 1) max_charges }) }
                    else
                      let inv1 := w.player.inventory.filter (fun id => id != item_id)
                      { w with player := { w.player with inventory := inv1 } }
                  | _ => w
                let heal_amount := 20
                let user1 := { user with hp := min (user.hp + heal_amount) user.max_hp }
                let combat1 := { w1.combat with combatants := w1.combat.combatants.set combatant_idx user1 }
                let w2 := { w1 with combat := combat1 }
                (w2, .ok s!"{user_id} used {item_id} and healed for {heal_amount}")
              else
                (w, .error s!"Item {item_id} is not usable")

/-- Whether a combatant currently has a `Stunned` effect
(`execute_end_turn`, the `has_stunned` test). -/
def isStunnedC (c : Combatant) : Bool :=
  c.status_effects.any (fun e => e.effect_type == StatusType.Stunned)

/-- The guarded per-effect decrement applied to a stunned combatant as it
is skipped over (`agent.rs`, lines 901-905): positive durations drop by
one, zero durations are left in place. -/
def decPositiveEffects (c : Combatant) : Combatant :=
  { c with status_effects := c.status_effects.map (fun e =>
      if 0 < e.duration then { e with duration := e.duration - 1 } else e) }

/-- The advance loop of `execute_end_turn` (`agent.rs`, lines 891-908)
applied to the combatants after the current index: decrement the effects
of each stunned combatant passed over; return the rewritten suffix and
the relative offset of the first non-stunned combatant (`none` when the
whole suffix was consumed, i.e. the round wraps). -/
def skipStunned : List Combatant → List Combatant × Option Nat
  | [] => ([], none)
  | c :: rest =>
    if isStunnedC c then
      let r := skipStunned rest
      (decPositiveEffects c :: r.1, r.2.map (fun k => k + 1))
    else (c :: rest, some 0)

/-- One step of the round-wrap effect loop (`agent.rs`, lines 913-935):
compute the decremented duration, apply Poison/Burning severity to hp
with a floor of zero, and retain the effect only when time remains.
The Rust `effect.duration - 1` is an unguarded `u32` subtraction: at
`duration = 0` it underflows (panic in a debug build); the `Nat`
truncation used here coincides with it whenever `1 ≤ duration`. -/
def tickOne (acc : Nat × List StatusEffect) (e : StatusEffect) : Nat × List StatusEffect :=
  let remaining := e.duration - 1
  let hp :=
    match e.effect_type with
    | .Poison | .Burning => if e.severity < acc.1 then acc.1 - e.severity else 0
    | _ => acc.1
  (hp, if 0 < remaining then acc.2 ++ [{ e with duration := remaining }] else acc.2)

/-- The round-wrap processing of one combatant (`agent.rs`, lines 913-936). -/
def wrapCombatant (c : Combatant) : Combatant :=
  let r := c.status_effects.foldl tickOne (c.hp, [])
  { c with hp := r.1, status_effects := r.2 }

/-- Offset of the first non-stunned combatant, the length if all are
stunned (`agent.rs`, lines 951-957). -/
def firstNonStunned : List Combatant → Nat
  | [] => 0
  | c :: rest => if isStunnedC c then firstNonStunned rest + 1 else 0

/-- The reset of every temporary defense at the top of `execute_end_turn`
(`agent.rs`, lines 885-887). -/
def resetTempDefense (cs : List Combatant) : List Combatant :=
  cs.map (fun c => { c with temp_defense := 0 })

/-- Name of the combatant at the new turn index, `"none"` when out of
range (`agent.rs`, lines 966-968). -/
def nextCombatantName (cs : List Combatant) (i : Nat) : String :=
  match cs.get? i with
  | some c => c.id
  | none => "none"

/-- The non-wrapping exit of `execute_end_turn`: store the rewritten
combatant list and the advanced turn index (`agent.rs`, lines 964-970). -/
def endTurnNoWrap (w : WorldState) (cs1 : List Combatant) (new_turn_index : Nat) :
    WorldState × Except String String :=
  let combat1 := { w.combat with combatants := cs1, current_turn_index := new_turn_index }
  ({ w with combat := combat1 },
   .ok s!"Turn ended. Next: {nextCombatantName cs1 new_turn_index}")

/-- The round-wrap branch of `execute_end_turn` (`agent.rs`, lines
910-962, plus the shared exit), applied to the combatant list `cs1` as it
stands when the branch is entered. -/
def endTurnWrap (w : WorldState) (cs1 : List Combatant) :
    WorldState × Except String String :=
  let csW := (cs1.map wrapCombatant).filter (fun c => 0 < c.hp)
  if !(csW.any (fun c => c.is_player)) || !(csW.any (fun c => !c.is_player)) then
    let combat1 : CombatState :=
      { active := false, combatants := csW,
        current_turn_index := w.combat.current_turn_index,
        round_number := w.combat.round_number + 1 }
    ({ w with combat := combat1 }, .ok "Combat ended")
  else
    let new_turn_index :=
      if csW.length ≤ firstNonStunned csW then 0 else firstNonStunned csW
    let combat1 : CombatState :=
      { active := true, combatants := csW,
        current_turn_index := new_turn_index,
        round_number := w.combat.round_number + 1 }
    ({ w with combat := combat1 },
     .ok s!"Turn ended. Next: {nextCombatantName csW new_turn_index}")

/-- `Agent::execute_end_turn` (`agent.rs`). -/
def execute_end_turn (w : WorldState) (args : ActorIdArgs) :
    WorldState × Except String String :=
  match args.actor_id with
  | none => (w, .error "Missing actor_id")
  | some actor_id =>
    if !w.combat.active then (w, .error "Combat is not active")
    else if ((w.combat.combatants.get? w.combat.current_turn_index).map (fun c => c.id))
        ≠ some actor_id then
      (w, .error s!"Not the turn of {actor_id}")
    else
      match skipStunned ((resetTempDefense w.combat.combatants).drop
          (w.combat.current_turn_index + 1)) with
      | (suf, some r) =>
        endTurnNoWrap w
          ((resetTempDefense w.combat.combatants).take (w.combat.current_turn_index + 1) ++ suf)
          (w.combat.current_turn_index + 1 + r)
      | (suf, none) =>
        endTurnWrap w
          ((resetTempDefense w.combat.combatants).take (w.combat.current_turn_index + 1) ++ suf)

/-- The combatant list at the instant `execute_end_turn` enters the
round-wrap branch (`agent.rs`, line 910): temp defense already reset and
the stun-skip pass already applied; `none` when the call fails or does
not wrap. -/
def endTurnWrapEntry (w : WorldState) (actor_id : String) : Option (List Combatant) :=
  if !w.combat.active then none
  else if ((w.combat.combatants.get? w.combat.current_turn_index).map (fun c => c.id))
      ≠ some actor_id then none
  else
    match skipStunned ((resetTempDefense w.combat.combatants).drop
        (w.combat.current_turn_index + 1)) with
    | (_, some _) => none
    | (suf, none) =>
      some ((resetTempDefense w.combat.combatants).take (w.combat.current_turn_index + 1) ++ suf)

/-- One call of the tool dispatcher (`Agent::execute_tool_call`): the
operation name with its decoded argument payload; the oracle inputs of
the stochastic or collaborator-backed handlers travel with the call. -/
inductive ToolCallOp
  | create_item (args : CreateItemArgs)
  | add_item_to_inventory (args : ItemIdArgs)
  | remove_item_from_inventory (args : ItemIdArgs)
  | add_item_to_location (args : ItemIdArgs)
  | remove_item_from_location (args : ItemIdArgs)
  | use_item (args : ItemIdArgs)
  | equip_item (args : ItemIdArgs)
  | unequip_item (args : ItemIdArgs)
  | combine_items (args : CombineArgs)
  | break_item (args : ItemIdArgs)
  | add_item_to_container (args : ContainerArgs)
  | remove_item_from_container (args : ContainerArgs)
  | move_to (args : MoveToArgs) (gen : Except String Location)
  | update_location_description (args : TextArgs)
  | generate_turn_narrative (args : TextArgs)
  | start_combat (args : StartCombatArgs) (rng : Nat → Nat)
  | attack_actor (args : AttackArgs)
  | defend (args : ActorIdArgs)
  | flee (args : ActorIdArgs) (roll : Nat)
  | use_item_in_combat (args : UseItemInCombatArgs)
  | end_turn (args : ActorIdArgs)
  | inspect_object (args : ObjectIdArgs)

/-- The dispatch `match` of `Agent::execute_tool_call` (`agent.rs`,
lines 314-338). -/
def execute_tool_call (w : WorldState) : ToolCallOp → WorldState × Except String String
  | .create_item a => execute_create_item w a
  | .add_item_to_inventory a => execute_add_item_to_inventory w a
  | .remove_item_from_inventory a => execute_remove_item_from_inventory w a
  | .add_item_to_location a => execute_add_item_to_location w a
  | .remove_item_from_location a => execute_remove_item_from_location w a
  | .use_item a => execute_use_item w a
  | .equip_item a => execute_equip_item w a
  | .unequip_item a => execute_unequip_item w a
  | .combine_items a => execute_combine_items w a
  | .break_item a => execute_break_item w a
  | .add_item_to_container a => execute_add_item_to_container w a
  | .remove_item_from_container a => execute_remove_item_from_container w a
  | .move_to a gen => execute_move_to w a gen
  | .update_location_description a => execute_update_location_description w a
  | .generate_turn_narrative a => execute_generate_turn_narrative w a
  | .start_combat a rng => execute_start_combat w a rng
  | .attack_actor a => execute_attack_actor w a
  | .defend a => execute_defend w a
  | .flee a roll => execute_flee w a roll
  | .use_item_in_combat a => execute_use_item_in_combat w a
  | .end_turn a => execute_end_turn w a
  | .inspect_object a => execute_inspect_object w a

/-! ### Error calls never mutate the world (per handler) -/

theorem endTurnNoWrap_snd (w : WorldState) (cs1 : List Combatant) (n : Nat) :
    (endTurnNoWrap w cs1 n).2 = .ok s!"Turn ended. Next: {nextCombatantName cs1 n}" := rfl

theorem endTurnWrap_snd_ne_error (w : WorldState) (cs1 : List Combatant) (e : String) :
    (endTurnWrap w cs1).2 ≠ .error e := by
  simp only [endTurnWrap]
  split <;> simp

theorem execute_create_item_error_unchanged {w : WorldState} {a : CreateItemArgs} {e : String}
    (h : (execute_create_item w a).2 = .error e) : (execute_create_item w a).1 = w := by
  simp only [execute_create_item] at h ⊢
  repeat' split at h
  all_goals simp_all

theorem execute_add_item_to_inventory_error_unchanged {w : WorldState} {a : ItemIdArgs} {e : String}
    (h : (execute_add_item_to_inventory w a).2 = .error e) :
    (execute_add_item_to_inventory w a).1 = w := by
  simp only [execute_add_item_to_inventory] at h ⊢
  repeat' split at h
  all_goals simp_all

theorem execute_remove_item_from_inventory_error_unchanged {w : WorldState} {a : ItemIdArgs} {e : String}
    (h : (execute_remove_item_from_inventory w a).2 = .error e) :
    (execute_remove_item_from_inventory w a).1 = w := by
  simp only [execute_remove_item_from_inventory] at h ⊢
  repeat' split at h
  all_goals simp_all

theorem execute_add_item_to_location_error_unchanged {w : WorldState} {a : ItemIdArgs} {e : String}
    (h : (execute_add_item_to_location w a).2 = .error e) :
    (execute_add_item_to_location w a).1 = w := by
  simp only [execute_add_item_to_location] at h ⊢
  repeat' split at h
  all_goals simp_all

theorem execute_remove_item_from_location_error_unchanged {w : WorldState} {a : ItemIdArgs} {e : String}
    (h : (execute_remove_item_from_location w a).2 = .error e) :
    (execute_remove_item_from_location w a).1 = w := by
  simp only [execute_remove_item_from_location] at h ⊢
  repeat' split at h
  all_goals simp_all

theorem execute_use_item_error_unchanged {w : WorldState} {a : ItemIdArgs} {e : String}
    (h : (execute_use_item w a).2 = .error e) : (execute_use_item w a).1 = w := by
  simp only [execute_use_item] at h ⊢
  repeat' split at h
  all_goals simp_all

theorem execute_equip_item_error_unchanged {w : WorldState} {a : ItemIdArgs} {e : String}
    (h : (execute_equip_item w a).2 = .error e) : (execute_equip_item w a).1 = w := by
  simp only [execute_equip_item] at h ⊢
  repeat' split at h
  all_goals simp_all

theorem execute_unequip_item_error_unchanged {w : WorldState} {a : ItemIdArgs} {e : String}
    (h : (execute_unequip_item w a).2 = .error e) : (execute_unequip_item w a).1 = w := by
  simp only [execute_unequip_item] at h ⊢
  repeat' split at h
  all_goals simp_all

theorem execute_combine_items_error_unchanged {w : WorldState} {a : CombineArgs} {e : String}
    (h : (execute_combine_items w a).2 = .error e) : (execute_combine_items w a).1 = w := by
  simp only [execute_combine_items] at h ⊢
  repeat' split at h
  all_goals simp_all

theorem execute_break_item_error_unchanged {w : WorldState} {a : ItemIdArgs} {e : String}
    (h : (execute_break_item w a).2 = .error e) : (execute_break_item w a).1 = w := by
  simp only [execute_break_item] at h ⊢
  repeat' split at h
  all_goals simp_all

theorem execute_add_item_to_container_error_unchanged {w : WorldState} {a : ContainerArgs} {e : String}
    (h : (execute_add_item_to_container w a).2 = .error e) :
    (execute_add_item_to_container w a).1 = w := by
  simp only [execute_add_item_to_container] at h ⊢
  repeat' split at h
  all_goals simp_all

theorem execute_remove_item_from_container_error_unchanged {w : WorldState} {a : ContainerArgs} {e : String}
    (h : (execute_remove_item_from_container w a).2 = .error e) :
    (execute_remove_item_from_container w a).1 = w := by
  simp only [execute_remove_item_from_container] at h ⊢
  repeat' split at h
  all_goals simp_all

theorem execute_move_to_error_unchanged {w : WorldState} {a : MoveToArgs}
    {g : Except String Location} {e : String}
    (h : (execute_move_to w a g).2 = .error e) : (execute_move_to w a g).1 = w := by
  simp only [execute_move_to, finishMove] at h ⊢
  repeat' split at h
  all_goals simp_all

theorem execute_update_location_description_error_unchanged {w : WorldState} {a : TextArgs} {e : String}
    (h : (execute_update_location_description w a).2 = .error e) :
    (execute_update_location_description w a).1 = w := by
  simp only [execute_update_location_description] at h ⊢
  repeat' split at h
  all_goals simp_all

theorem execute_generate_turn_narrative_error_unchanged {w : WorldState} {a : TextArgs} {e : String}
    (h : (execute_generate_turn_narrative w a).2 = .error e) :
    (execute_generate_turn_narrative w a).1 = w := by
  simp only [execute_generate_turn_narrative] at h ⊢
  repeat' split at h
  all_goals simp_all

theorem execute_start_combat_error_unchanged {w : WorldState} {a : StartCombatArgs}
    {rng : Nat → Nat} {e : String}
    (h : (execute_start_combat w a rng).2 = .error e) : (execute_start_combat w a rng).1 = w := by
  simp only [execute_start_combat] at h ⊢
  repeat' split at h
  all_goals repeat' split
  all_goals simp_all

theorem execute_attack_actor_error_unchanged {w : WorldState} {a : AttackArgs} {e : String}
    (h : (execute_attack_actor w a).2 = .error e) : (execute_attack_actor w a).1 = w := by
  simp only [execute_attack_actor] at h ⊢
  repeat' split at h
  all_goals simp_all

theorem execute_defend_error_unchanged {w : WorldState} {a : ActorIdArgs} {e : String}
    (h : (execute_defend w a).2 = .error e) : (execute_defend w a).1 = w := by
  simp only [execute_defend] at h ⊢
  repeat' split at h
  all_goals simp_all

theorem execute_flee_error_unchanged {w : WorldState} {a : ActorIdArgs} {roll : Nat} {e : String}
    (h : (execute_flee w a roll).2 = .error e) : (execute_flee w a roll).1 = w := by
  simp only [execute_flee] at h ⊢
  repeat' split at h
  all_goals simp_all

theorem execute_use_item_in_combat_error_unchanged {w : WorldState} {a : UseItemInCombatArgs} {e : String}
    (h : (execute_use_item_in_combat w a).2 = .error e) :
    (execute_use_item_in_combat w a).1 = w := by
  simp only [execute_use_item_in_combat] at h ⊢
  repeat' split at h
  all_goals simp_all

theorem execute_end_turn_error_unchanged {w : WorldState} {a : ActorIdArgs} {e : String}
    (h : (execute_end_turn w a).2 = .error e) : (execute_end_turn w a).1 = w := by
  unfold execute_end_turn at h ⊢
  repeat' split at h
  case _ => simp_all
  case _ => simp_all
  case _ => simp_all
  case _ => rw [endTurnNoWrap_snd] at h; exact absurd h (by simp)
  case _ => exact absurd h (endTurnWrap_snd_ne_error _ _ _)

theorem execute_inspect_object_error_unchanged {w : WorldState} {a : ObjectIdArgs} {e : String}
    (h : (execute_inspect_object w a).2 = .error e) : (execute_inspect_object w a).1 = w := by
  simp only [execute_inspect_object] at h ⊢
  repeat' split at h
  all_goals simp_all

/-- C1: for every tool operation of the dispatcher, every world state and
every argument payload (with its oracle inputs), a call that returns an
error leaves the world model exactly as it was: each tool application
either fully succeeds or performs no mutation at all. -/
theorem tool_call_error_leaves_world_unchanged (w : WorldState) (op : ToolCallOp) (e : String)
    (h : (execute_tool_call w op).2 = .error e) : (execute_tool_call w op).1 = w := by
  cases op with
  | create_item a => exact execute_create_item_error_unchanged h
  | add_item_to_inventory a => exact execute_add_item_to_inventory_error_unchanged h
  | remove_item_from_inventory a => exact execute_remove_item_from_inventory_error_unchanged h
  | add_item_to_location a => exact execute_add_item_to_location_error_unchanged h
  | remove_item_from_location a => exact execute_remove_item_from_location_error_unchanged h
  | use_item a => exact execute_use_item_error_unchanged h
  | equip_item a => exact execute_equip_item_error_unchanged h
  | unequip_item a => exact execute_unequip_item_error_unchanged h
  | combine_items a => exact execute_combine_items_error_unchanged h
  | break_item a => exact execute_break_item_error_unchanged h
  | add_item_to_container a => exact execute_add_item_to_container_error_unchanged h
  | remove_item_from_container a => exact execute_remove_item_from_container_error_unchanged h
  | move_to a g => exact execute_move_to_error_unchanged h
  | update_location_description a => exact execute_update_location_description_error_unchanged h
  | generate_turn_narrative a => exact execute_generate_turn_narrative_error_unchanged h
  | start_combat a rng => exact execute_start_combat_error_unchanged h
  | attack_actor a => exact execute_attack_actor_error_unchanged h
  | defend a => exact execute_defend_error_unchanged h
  | flee a roll => exact execute_flee_error_unchanged h
  | use_item_in_combat a => exact execute_use_item_in_combat_error_unchanged h
  | end_turn a => exact execute_end_turn_error_unchanged h
  | inspect_object a => exact execute_inspect_object_error_unchanged h

/-- Witness for C1: `defend` on the fresh world fails (combat inactive)
and, by the theorem, leaves the world untouched. -/
theorem tool_call_error_leaves_world_unchanged_witness :
    (execute_tool_call WorldState.new (.defend { actor_id := some "player" })).2
      = .error "Combat is not active" ∧
    (execute_tool_call WorldState.new (.defend { actor_id := some "player" })).1
      = WorldState.new :=
  ⟨rfl, tool_call_error_leaves_world_unchanged WorldState.new _ "Combat is not active" rfl⟩

/-! ### Association-list map lemmas -/

theorem alGet_alInsert_self {K V : Type} [DecidableEq K] (m : List (K × V)) (k : K) (v : V) :
    alGet (alInsert m k v) k = some v := by
  induction m with
  | nil => simp [alInsert, alGet]
  | cons p rest ih =>
    obtain ⟨k0, v0⟩ := p
    by_cases hk : k0 = k <;> simp [alInsert, alGet, hk, ih]

theorem alGet_alInsert_ne {K V : Type} [DecidableEq K] (m : List (K × V)) (k k' : K) (v : V)
    (hne : k' ≠ k) : alGet (alInsert m k v) k' = alGet m k' := by
  induction m with
  | nil => simp [alInsert, alGet, Ne.symm hne]
  | cons p rest ih =>
    obtain ⟨k0, v0⟩ := p
    by_cases hk : k0 = k
    · subst hk
      simp [alInsert, alGet, Ne.symm hne]
    · simp [alInsert, alGet, hk, ih]

theorem alGet_alUpdate_self {K V : Type} [DecidableEq K] (m : List (K × V)) (k : K) (f : V → V) :
    alGet (alUpdate m k f) k = (alGet m k).map f := by
  induction m with
  | nil => simp [alUpdate, alGet]
  | cons p rest ih =>
    obtain ⟨k0, v0⟩ := p
    by_cases hk : k0 = k <;> simp [alUpdate, alGet, hk, ih]

theorem alGet_alUpdate_ne {K V : Type} [DecidableEq K] (m : List (K × V)) (k k' : K) (f : V → V)
    (hne : k' ≠ k) : alGet (alUpdate m k f) k' = alGet m k' := by
  induction m with
  | nil => simp [alUpdate, alGet]
  | cons p rest ih =>
    obtain ⟨k0, v0⟩ := p
    by_cases hk : k0 = k
    · subst hk
      simp [alUpdate, alGet, Ne.symm hne]
    · simp [alUpdate, alGet, hk, ih]

/-! ### C8: use item on a Consumed item -/

/-- C8: for a usable item in state `Consumed`, `use_item` with more than
one charge decrements the charge count by one and leaves the inventory
untouched; with exactly one charge it removes the id from the inventory
and leaves the registry entry intact. -/
theorem use_item_on_consumed (w : WorldState) (item_id : String) (it : Item)
    (charges max_charges : Nat)
    (hget : alGet w.items item_id = some it)
    (husable : it.properties.usable = true)
    (hstate : it.state = .Consumed charges max_charges) :
    (∃ m, (execute_use_item w { item_id := some item_id }).2 = .ok m) ∧
    (1 < charges →
      alGet (execute_use_item w { item_id := some item_id }).1.items item_id
          = some { it with state := .Consumed (charges - 1) max_charges } ∧
      (execute_use_item w { item_id := some item_id }).1.player.inventory
          = w.player.inventory) ∧
    (charges = 1 →
      (execute_use_item w { item_id := some item_id }).1.items = w.items ∧
      item_id ∉ (execute_use_item w { item_id := some item_id }).1.player.inventory) := by
  refine ⟨⟨_, rfl⟩, ?_, ?_⟩
  · intro hc
    have hw : (execute_use_item w { item_id := some item_id }).1
        = { w with items := alUpdate w.items item_id (fun x =>
            { x with state := .Consumed (charges - 1) max_charges }) } := by
      simp only [execute_use_item, hget, husable, hstate, if_true, if_pos hc]
    rw [hw]
    exact ⟨by simp [alGet_alUpdate_self, hget], rfl⟩
  · intro hc
    subst hc
    have hw : (execute_use_item w { item_id := some item_id }).1
        = { w with player :=
            { inventory := w.player.inventory.filter (fun id => id != item_id), money := w.player.money } } := by
      simp only [execute_use_item, hget, husable, hstate, if_true,
        if_neg (by simp : ¬(1 < 1))]
    rw [hw]
    refine ⟨rfl, ?_⟩
    intro hmem
    have := List.mem_filter.mp hmem
    simp at this

/-- A two-charge usable potion, for the C8 witness. -/
def potionC8 : Item :=
  { id := "potion", name := "Potion", description := "",
    item_type := .Consumable, state := .Consumed 2 2,
    properties := { ItemProperties.default with usable := true } }

/-- World holding `potionC8`, for the C8 witness. -/
def useItemWorldC8 : WorldState :=
  { WorldState.new with
    items := [("potion", potionC8)],
    player := { inventory := ["potion"], money := 0 } }

/-- Witness for C8: the two-charge potion drops to one charge and stays
in the inventory. -/
theorem use_item_on_consumed_witness :
    alGet (execute_use_item useItemWorldC8 { item_id := some "potion" }).1.items "potion"
        = some { potionC8 with state := .Consumed 1 2 } ∧
    (execute_use_item useItemWorldC8 { item_id := some "potion" }).1.player.inventory
        = useItemWorldC8.player.inventory := by
  have h := (use_item_on_consumed useItemWorldC8 "potion" potionC8 2 2 rfl rfl rfl).2.1
    (by decide)
  exact ⟨h.1, h.2⟩

/-! ### C7: combine with an unregistered result id -/

/-- C7 counterexample world: the inventory holds a dangling reference
`"gem"` that is absent from the registry (such a state is produced by
`add_item_to_inventory`, which never checks the registry). -/
def combineCxWorld : WorldState :=
  { WorldState.new with player := { inventory := ["gem"], money := 0 } }

/-- Counterexample for C7: combining with unregistered result id `"gem"`
succeeds, yet `"gem"` is in the inventory afterwards (it already was
before and nothing removes it), contradicting the claim that after the
call no item with the result id appears in the inventory. -/
theorem combine_unregistered_result_in_inventory :
    (∃ m, (execute_combine_items combineCxWorld
        { item1_id := some "rope", item2_id := some "stick", result_id := some "gem" }).2 = .ok m) ∧
    alGet combineCxWorld.items "gem" = none ∧
    "gem" ∈ (execute_combine_items combineCxWorld
        { item1_id := some "rope", item2_id := some "stick", result_id := some "gem" }).1.player.inventory := by
  refine ⟨⟨_, rfl⟩, rfl, ?_⟩
  decide

/-- C7 (amended): combining with a result id absent from the registry
succeeds, never touches the registry, and adds no occurrence of the
result id to the inventory: the result id is present afterwards only if
it was already present before the call. -/
theorem combine_items_unregistered_result_noop (w : WorldState) (i1 i2 rid : String)
    (hreg : alGet w.items rid = none) :
    (∃ m, (execute_combine_items w
        { item1_id := some i1, item2_id := some i2, result_id := some rid }).2 = .ok m) ∧
    (execute_combine_items w
        { item1_id := some i1, item2_id := some i2, result_id := some rid }).1.items = w.items ∧
    (rid ∉ w.player.inventory →
      rid ∉ (execute_combine_items w
        { item1_id := some i1, item2_id := some i2, result_id := some rid }).1.player.inventory) := by
  have hw : (execute_combine_items w
      { item1_id := some i1, item2_id := some i2, result_id := some rid }).1
      = { w with
          player :=
            { inventory := w.player.inventory.filter (fun id => id != i1 && id != i2),
              money := w.player.money },
          locations := alMapVals (fun loc =>
            { loc with items := loc.items.filter (fun id => id != i1 && id != i2) }) w.locations } := by
    simp only [execute_combine_items, hreg]
  refine ⟨⟨_, rfl⟩, by rw [hw], ?_⟩
  intro hnot hmem
  rw [hw] at hmem
  exact hnot (List.mem_filter.mp hmem).1

/-- Witness for C7 (amended): on the fresh world, combining into the
unregistered id `"gem"` leaves `"gem"` out of the inventory. -/
theorem combine_items_unregistered_result_noop_witness :
    "gem" ∉ (execute_combine_items WorldState.new
        { item1_id := some "rope", item2_id := some "stick", result_id := some "gem" }).1.player.inventory :=
  (combine_items_unregistered_result_noop WorldState.new "rope" "stick" "gem" rfl).2.2
    (by decide)

/-! ### C5: attack damage resolution -/

theorem if_sub_zero_eq_max (a b : Nat) :
    (if a - b = 0 then 1 else a - b) = max 1 (a - b) := by
  split <;> omega

/-- C5: a successful attack reduces the target hp by
`max 1 (weapon damage - (armor defense + temp defense))` (so resolved
damage is at least 1), and a missing or unknown weapon id resolves to the
fixed base damage 5. -/
theorem attack_damage_floor (w : WorldState) (attacker_id target_id : String)
    (wid : Option String)
    (hact : w.combat.active = true)
    (pa : Nat × Combatant)
    (hpa : position (fun c => c.id == attacker_id) w.combat.combatants = some pa)
    (j : Nat) (target : Combatant)
    (htar : position (fun c => c.id == target_id) w.combat.combatants = some (j, target)) :
    1 ≤ max 1 ((match wid with
        | some weapon_id => ((alGet w.items weapon_id).bind (fun i => i.properties.damage)).getD 5
        | none => 5)
      - (((target.armor_id.bind (fun id => alGet w.items id)).bind
            (fun i => i.properties.defense)).getD 0 + target.temp_defense)) ∧
    (wid = none →
      (match wid with
        | some weapon_id => ((alGet w.items weapon_id).bind (fun i => i.properties.damage)).getD 5
        | none => 5) = 5) ∧
    (∀ s, wid = some s → alGet w.items s = none →
      (match wid with
        | some weapon_id => ((alGet w.items weapon_id).bind (fun i => i.properties.damage)).getD 5
        | none => 5) = 5) ∧
    (execute_attack_actor w
        { attacker_id := some attacker_id, target_id := some target_id, weapon_id := wid }).1.combat.combatants
      = w.combat.combatants.set j { target with hp := target.hp - max 1 ((match wid with
          | some weapon_id => ((alGet w.items weapon_id).bind (fun i => i.properties.damage)).getD 5
          | none => 5)
        - (((target.armor_id.bind (fun id => alGet w.items id)).bind
              (fun i => i.properties.defense)).getD 0 + target.temp_defense)) } ∧
    (∃ m, (execute_attack_actor w
        { attacker_id := some attacker_id, target_id := some target_id, weapon_id := wid }).2 = .ok m) := by
  refine ⟨le_max_left 1 _, by intro h; rw [h], by intro s h hn; rw [h]; simp [hn], ?_, ?_⟩
  · simp only [execute_attack_actor, hact, Bool.not_true, if_sub_zero_eq_max, hpa, htar]
    rfl
  · simp only [execute_attack_actor, hact, Bool.not_true, hpa, htar]
    exact ⟨_, rfl⟩

/-- The player combatant of the C5 witness combat. -/
def playerC5 : Combatant :=
  { id := "player", is_player := true, hp := 100, max_hp := 100,
    weapon_id := none, armor_id := none, initiative := 12,
    status_effects := [], temp_defense := 0 }

/-- The enemy combatant of the C5 witness combat. -/
def orcC5 : Combatant :=
  { id := "orc", is_player := false, hp := 50, max_hp := 50,
    weapon_id := none, armor_id := none, initiative := 7,
    status_effects := [], temp_defense := 0 }

/-- World in active combat, for the C5 witness. -/
def attackWorldC5 : WorldState :=
  { WorldState.new with combat :=
      { active := true, combatants := [playerC5, orcC5],
        current_turn_index := 0, round_number := 1 } }

/-- Witness for C5: an unarmed attack on the orc deals the base damage 5. -/
theorem attack_damage_floor_witness :
    (execute_attack_actor attackWorldC5
        { attacker_id := some "player", target_id := some "orc", weapon_id := none }).1.combat.combatants
      = attackWorldC5.combat.combatants.set 1 { orcC5 with hp := orcC5.hp - 5 } := by
  have h := (attack_damage_floor attackWorldC5 "player" "orc" none rfl
    (0, playerC5) rfl 1 orcC5 rfl).2.2.2.1
  simpa using h

/-! ### C9: end turn resets every temporary defense -/

theorem skipStunned_fst_temp_zero (cs : List Combatant)
    (h : ∀ c ∈ cs, c.temp_defense = 0) :
    ∀ c ∈ (skipStunned cs).1, c.temp_defense = 0 := by
  induction cs with
  | nil => simp [skipStunned]
  | cons c0 rest ih =>
    intro c hc
    by_cases hs : isStunnedC c0 = true
    · simp only [skipStunned, hs, if_true] at hc
      rcases List.mem_cons.mp hc with hc | hc
      · subst hc
        show (decPositiveEffects c0).temp_defense = 0
        simp [decPositiveEffects, h c0 (List.mem_cons_self _ _)]
      · exact ih (fun x hx => h x (List.mem_cons_of_mem _ hx)) c hc
    · simp only [skipStunned, hs, if_false] at hc
      exact h c hc

theorem endTurnWrap_fst_combatants (w : WorldState) (cs1 : List Combatant) :
    (endTurnWrap w cs1).1.combat.combatants
      = (cs1.map wrapCombatant).filter (fun c => 0 < c.hp) := by
  simp only [endTurnWrap]
  split <;> rfl

theorem endTurnWrap_fst_round (w : WorldState) (cs1 : List Combatant) :
    (endTurnWrap w cs1).1.combat.round_number = w.combat.round_number + 1 := by
  simp only [endTurnWrap]
  split <;> rfl

/-- Control-flow characterization of `execute_end_turn`: a call either
fails leaving the world untouched, advances without wrapping, or enters
the round-wrap branch on the reset-and-skipped combatant list. -/
theorem execute_end_turn_cases (w : WorldState) (args : ActorIdArgs) :
    (∃ e, execute_end_turn w args = (w, Except.error e)) ∨
    (∃ suf r, skipStunned ((resetTempDefense w.combat.combatants).drop
          (w.combat.current_turn_index + 1)) = (suf, some r) ∧
       execute_end_turn w args = endTurnNoWrap w
         ((resetTempDefense w.combat.combatants).take (w.combat.current_turn_index + 1) ++ suf)
         (w.combat.current_turn_index + 1 + r)) ∨
    (∃ suf, skipStunned ((resetTempDefense w.combat.combatants).drop
          (w.combat.current_turn_index + 1)) = (suf, none) ∧
       execute_end_turn w args = endTurnWrap w
         ((resetTempDefense w.combat.combatants).take (w.combat.current_turn_index + 1) ++ suf)) := by
  unfold execute_end_turn
  repeat' split
  · exact Or.inl ⟨_, rfl⟩
  · exact Or.inl ⟨_, rfl⟩
  · exact Or.inl ⟨_, rfl⟩
  · next suf r heq => exact Or.inr (Or.inl ⟨suf, r, heq, rfl⟩)
  · next suf heq => exact Or.inr (Or.inr ⟨suf, heq, rfl⟩)

/-- C9: immediately after any successful end turn call, every combatant
in the resulting list has temporary defense zero — the reset applies to
all combatants, not only the acting one. -/
theorem end_turn_resets_all_temp_defense (w : WorldState) (args : ActorIdArgs) (m : String)
    (hok : (execute_end_turn w args).2 = .ok m) :
    ∀ c ∈ (execute_end_turn w args).1.combat.combatants, c.temp_defense = 0 := by
  have hreset : ∀ c ∈ resetTempDefense w.combat.combatants, c.temp_defense = 0 := by
    intro c hc
    obtain ⟨c0, _, rfl⟩ := List.mem_map.mp hc
    rfl
  have hentry : ∀ (suf : List Combatant),
      (skipStunned ((resetTempDefense w.combat.combatants).drop
          (w.combat.current_turn_index + 1))).1 = suf →
      ∀ c ∈ (resetTempDefense w.combat.combatants).take
          (w.combat.current_turn_index + 1) ++ suf, c.temp_defense = 0 := by
    intro suf hsuf c hc
    rcases List.mem_append.mp hc with hc | hc
    · exact hreset c (List.take_subset _ _ hc)
    · rw [← hsuf] at hc
      exact skipStunned_fst_temp_zero _
        (fun x hx => hreset x (List.drop_subset _ _ hx)) c hc
  rcases execute_end_turn_cases w args with ⟨e, hcase⟩ | ⟨suf, r, hsk, hcase⟩ | ⟨suf, hsk, hcase⟩
  · rw [hcase] at hok
    exact absurd hok (by simp)
  · rw [hcase]
    intro c hc
    simp only [endTurnNoWrap] at hc
    exact hentry suf (by rw [hsk]) c hc
  · rw [hcase]
    intro c hc
    rw [endTurnWrap_fst_combatants] at hc
    obtain ⟨c0, hc0, rfl⟩ := List.mem_map.mp (List.mem_filter.mp hc).1
    show (wrapCombatant c0).temp_defense = 0
    have h0 : c0.temp_defense = 0 := hentry suf (by rw [hsk]) c0 hc0
    simpa [wrapCombatant] using h0

/-- A player combatant carrying temporary defense, for the C9 witness. -/
def playerC9 : Combatant :=
  { id := "player", is_player := true, hp := 100, max_hp := 100,
    weapon_id := none, armor_id := none, initiative := 15,
    status_effects := [], temp_defense := 5 }

/-- World in active single-combatant combat, for the C9 witness. -/
def endTurnWorldC9 : WorldState :=
  { WorldState.new with combat :=
      { active := true, combatants := [playerC9],
        current_turn_index := 0, round_number := 1 } }

/-- Witness for C9: the lone defending player ends the turn and the
temporary defense of every surviving combatant is zero. -/
theorem end_turn_resets_all_temp_defense_witness :
    (execute_end_turn endTurnWorldC9 { actor_id := some "player" }).1.combat.combatants.all
        (fun c => c.temp_defense == 0) = true := by
  have h := end_turn_resets_all_temp_defense endTurnWorldC9 { actor_id := some "player" }
    "Combat ended" rfl
  rw [List.all_eq_true]
  intro c hc
  simpa using h c hc

/-! ### C6: movement fallback on generation failure -/

theorem dirTarget_ne {p : Int × Int} {d : String} {tp : Int × Int}
    (h : dirTarget p d = some tp) : tp ≠ p := by
  unfold dirTarget at h
  split at h
  case h_1 =>
    obtain rfl := Option.some.inj h
    intro hq
    have h2 := congrArg Prod.snd hq
    simp only at h2
    omega
  case h_2 =>
    obtain rfl := Option.some.inj h
    intro hq
    have h2 := congrArg Prod.snd hq
    simp only at h2
    omega
  case h_3 =>
    obtain rfl := Option.some.inj h
    intro hq
    have h2 := congrArg Prod.fst hq
    simp only at h2
    omega
  case h_4 =>
    obtain rfl := Option.some.inj h
    intro hq
    have h2 := congrArg Prod.fst hq
    simp only at h2
    omega
  case h_5 => exact absurd h (by simp)

/-- C6: moving in a cardinal direction into a coordinate with no
location, with the generator failing, succeeds anyway: the fixed fallback
location named `Mysterious area (x, y)` is inserted at the target, marked
visited, with its opposite-direction exit linked back to the source, the
source location gains an exit in the travel direction to the target, and
the player ends up at the target. -/
theorem move_to_generation_failure_fallback (w : WorldState) (d : String) (tp : Int × Int)
    (e : String) (curLoc : Location)
    (hd : dirTarget w.current_pos d = some tp)
    (habsent : alContains w.locations tp = false)
    (hcur : alGet w.locations w.current_pos = some curLoc) :
    (∃ m, (execute_move_to w { direction := some d } (.error e)).2 = .ok m) ∧
    (execute_move_to w { direction := some d } (.error e)).1.current_pos = tp ∧
    alGet (execute_move_to w { direction := some d } (.error e)).1.locations tp
      = some { name := s!"Mysterious area ({tp.1}, {tp.2})",
               description := "A mysterious place that appeared suddenly.",
               items := [], actors := [],
               exits := [(get_opposite_direction d, some w.current_pos)],
               cached_image_path := none,
               image_prompt := "A mysterious location with undefined characteristics.",
               visited := true } ∧
    (∃ src, alGet (execute_move_to w { direction := some d } (.error e)).1.locations w.current_pos
        = some src ∧ alGet src.exits d = some (some tp)) := by
  have hne : tp ≠ w.current_pos := dirTarget_ne hd
  have hne2 : w.current_pos ≠ tp := Ne.symm hne
  simp only [execute_move_to, hd, habsent, hcur, finishMove, Bool.false_eq_true, if_false]
  refine ⟨by first | trivial | exact ⟨_, rfl⟩, by trivial, ?_, ?_⟩
  · rw [alGet_alUpdate_self, alGet_alUpdate_self, alGet_alUpdate_ne _ _ _ _ hne,
      alGet_alInsert_self]
    rfl
  · refine ⟨{ curLoc with exits := alInsert curLoc.exits d (some tp) }, ?_, ?_⟩
    · rw [alGet_alUpdate_ne _ _ _ _ hne2, alGet_alUpdate_ne _ _ _ _ hne2,
        alGet_alUpdate_self, alGet_alInsert_ne _ _ _ _ hne2, hcur]
      rfl
    · exact alGet_alInsert_self _ _ _

/-- The starting location of the C6 witness world. -/
def startLocC6 : Location :=
  { name := "The Beginning", description := "A void of potential.",
    items := [], actors := [], exits := [], cached_image_path := none,
    image_prompt := "A swirling void.", visited := true }

/-- World with a single origin location, for the C6 witness. -/
def moveWorldC6 : WorldState :=
  { WorldState.new with locations := [((0, 0), startLocC6)] }

/-- Witness for C6: moving north with a failing generator lands the
player on the fallback location at `(0, 1)`. -/
theorem move_to_generation_failure_fallback_witness :
    (execute_move_to moveWorldC6 { direction := some "north" }
        (.error "connection refused")).1.current_pos = ((0 : Int), (1 : Int)) ∧
    alGet (execute_move_to moveWorldC6 { direction := some "north" }
        (.error "connection refused")).1.locations ((0 : Int), (1 : Int))
      = some { name := s!"Mysterious area ({(0 : Int)}, {(1 : Int)})",
               description := "A mysterious place that appeared suddenly.",
               items := [], actors := [],
               exits := [(get_opposite_direction "north", some ((0 : Int), (0 : Int)))],
               cached_image_path := none,
               image_prompt := "A mysterious location with undefined characteristics.",
               visited := true } := by
  have h := move_to_generation_failure_fallback moveWorldC6 "north" ((0 : Int), (1 : Int))
    "connection refused" startLocC6 rfl rfl rfl
  exact ⟨h.2.1, h.2.2.1⟩

/-! ### C3: the round-wrap processing -/

/-- Severity a status effect applies as damage-over-time in the
round-wrap branch: its severity for Poison and Burning, zero otherwise. -/
def dotSeverity (e : StatusEffect) : Nat :=
  match e.effect_type with
  | .Poison | .Burning => e.severity
  | _ => 0

/-- Total Poison/Burning severity of an effect list. -/
def dotDamage (es : List StatusEffect) : Nat := (es.map dotSeverity).sum

theorem tickOne_eq (hp : Nat) (acc : List StatusEffect) (e : StatusEffect) :
    tickOne (hp, acc) e
      = (hp - dotSeverity e,
         acc ++ (if 0 < e.duration - 1 then [{ e with duration := e.duration - 1 }] else [])) := by
  obtain ⟨et, dur, sev⟩ := e
  cases et <;>
    simp only [tickOne, dotSeverity] <;>
    refine Prod.ext ?_ ?_ <;>
    simp only [] <;>
    first
      | (split <;> omega)
      | omega
      | (split <;> simp)

theorem foldl_tickOne (es : List StatusEffect) (hp : Nat) (acc : List StatusEffect) :
    es.foldl tickOne (hp, acc)
      = (hp - dotDamage es,
         acc ++ (es.map (fun e => { e with duration := e.duration - 1 })).filter
             (fun e => 0 < e.duration)) := by
  induction es generalizing hp acc with
  | nil => simp [dotDamage]
  | cons e rest ih =>
    rw [List.foldl_cons, tickOne_eq, ih]
    refine Prod.ext ?_ ?_
    · show hp - dotSeverity e - dotDamage rest = hp - dotDamage (e :: rest)
      have : dotDamage (e :: rest) = dotSeverity e + dotDamage rest := by
        simp [dotDamage]
      omega
    · show (acc ++ _) ++ _ = acc ++ _
      rw [List.append_assoc]
      congr 1
      rw [List.map_cons, List.filter_cons]
      split
      · next hpos =>
        rw [if_pos (by simpa using hpos)]
        rfl
      · next hpos =>
        rw [if_neg (by simpa using hpos)]
        rfl

/-- The round-wrap processing of a single combatant, in separated form:
hp drops by the summed Poison/Burning severities (floored at zero by the
truncated subtraction), each duration drops by one, and expired effects
are dropped. -/
theorem wrapCombatant_spec (c : Combatant) :
    wrapCombatant c = { c with
      hp := c.hp - dotDamage c.status_effects,
      status_effects := (c.status_effects.map (fun e => { e with duration := e.duration - 1 })).filter
        (fun e => 0 < e.duration) } := by
  simp only [wrapCombatant, foldl_tickOne, List.nil_append]

/-- A call whose wrap-entry list is `cs` runs the round-wrap branch on `cs`. -/
theorem endTurnWrapEntry_exec (w : WorldState) (actor_id : String) (cs : List Combatant)
    (h : endTurnWrapEntry w actor_id = some cs) :
    execute_end_turn w { actor_id := some actor_id } = endTurnWrap w cs := by
  by_cases hact : (!w.combat.active) = true
  · rw [endTurnWrapEntry, if_pos hact] at h
    exact absurd h (by simp)
  · by_cases hguard : (Option.map (fun c => c.id)
        (w.combat.combatants.get? w.combat.current_turn_index)) ≠ some actor_id
    · rw [endTurnWrapEntry, if_neg hact, if_pos hguard] at h
      exact absurd h (by simp)
    · rcases hsk : skipStunned ((resetTempDefense w.combat.combatants).drop
          (w.combat.current_turn_index + 1)) with ⟨suf, osk⟩
      cases osk with
      | some r =>
        rw [endTurnWrapEntry, if_neg hact, if_neg hguard] at h
        simp only [hsk] at h
        exact absurd h (by simp)
      | none =>
        rw [endTurnWrapEntry, if_neg hact, if_neg hguard] at h
        simp only [hsk] at h
        obtain rfl := Option.some.inj h
        simp only [execute_end_turn]
        rw [if_neg hact, if_neg hguard]
        simp only [hsk]

/-- C3: when a successful end turn wraps the round (the turn advance runs
past the last combatant), the round counter goes up by exactly one and,
for the combatant list as it stands at wrap entry, every combatant loses
hp equal to its summed Poison/Burning severities (clamped at zero), every
effect duration drops by exactly one, effects reaching zero are dropped,
and combatants at zero hp are removed.  The `1 ≤ duration` hypothesis is
the domain on which truncated `Nat` subtraction agrees with the unguarded
`u32` subtraction of the source (see C10). -/
theorem end_turn_round_wrap (w : WorldState) (actor_id : String) (cs : List Combatant)
    (hwrap : endTurnWrapEntry w actor_id = some cs)
    (_hdur : ∀ c ∈ cs, ∀ e ∈ c.status_effects, 1 ≤ e.duration) :
    (∃ m, (execute_end_turn w { actor_id := some actor_id }).2 = .ok m) ∧
    (execute_end_turn w { actor_id := some actor_id }).1.combat.round_number
        = w.combat.round_number + 1 ∧
    (execute_end_turn w { actor_id := some actor_id }).1.combat.combatants
        = (cs.map (fun c => { c with
            hp := c.hp - dotDamage c.status_effects,
            status_effects := (c.status_effects.map
                (fun e => { e with duration := e.duration - 1 })).filter
              (fun e => 0 < e.duration) })).filter (fun c => 0 < c.hp) := by
  rw [endTurnWrapEntry_exec w actor_id cs hwrap]
  refine ⟨?_, endTurnWrap_fst_round w cs, ?_⟩
  · simp only [endTurnWrap]
    split
    · exact ⟨_, rfl⟩
    · exact ⟨_, rfl⟩
  · rw [endTurnWrap_fst_combatants]
    congr 1
    exact List.map_congr_left (fun c _ => wrapCombatant_spec c)

/-- A two-round Poison effect, for the C3 witness. -/
def poisonC3 : StatusEffect := { effect_type := .Poison, duration := 2, severity := 7 }

/-- A poisoned player combatant, for the C3 witness. -/
def playerC3 : Combatant :=
  { id := "player", is_player := true, hp := 100, max_hp := 100,
    weapon_id := none, armor_id := none, initiative := 11,
    status_effects := [poisonC3], temp_defense := 0 }

/-- World in active single-combatant combat, for the C3 witness. -/
def wrapWorldC3 : WorldState :=
  { WorldState.new with combat :=
      { active := true, combatants := [playerC3],
        current_turn_index := 0, round_number := 1 } }

/-- Witness for C3: ending the turn wraps the round; the poisoned player
drops to 93 hp and the Poison effect to one remaining round. -/
theorem end_turn_round_wrap_witness :
    (execute_end_turn wrapWorldC3 { actor_id := some "player" }).1.combat.round_number = 2 ∧
    (execute_end_turn wrapWorldC3 { actor_id := some "player" }).1.combat.combatants
      = [{ playerC3 with
           hp := 93,
           status_effects := [{ effect_type := .Poison, duration := 1, severity := 7 }] }] := by
  have h := end_turn_round_wrap wrapWorldC3 "player" [playerC3] rfl (by decide)
  refine ⟨h.2.1, ?_⟩
  rw [h.2.2]
  decide

/-! ### C4: start combat -/

theorem insertDesc_perm (x : Combatant) (l : List Combatant) :
    (insertDesc x l).Perm (x :: l) := by
  induction l with
  | nil => exact List.Perm.refl _
  | cons y ys ih =>
    unfold insertDesc
    split
    · exact ((ih.cons y).trans (List.Perm.swap x y ys))
    · exact List.Perm.refl _

theorem foldl_insertDesc_perm (l : List Combatant) :
    ∀ acc : List Combatant,
      (l.foldl (fun a c => insertDesc c a) acc).Perm (acc ++ l) := by
  induction l with
  | nil => intro acc; simp
  | cons c rest ih =>
    intro acc
    have h1 : (rest.foldl (fun a c => insertDesc c a) (insertDesc c acc)).Perm
        (insertDesc c acc ++ rest) := ih _
    have h2 : (insertDesc c acc ++ rest).Perm ((c :: acc) ++ rest) :=
      (insertDesc_perm c acc).append_right rest
    have h3 : ((c :: acc) ++ rest).Perm (acc ++ c :: rest) := by
      simpa using (@List.perm_middle Combatant c acc rest).symm
    exact h1.trans (h2.trans h3)

theorem sortByInitiativeDesc_perm (cs : List Combatant) :
    (sortByInitiativeDesc cs).Perm cs := by
  simpa [sortByInitiativeDesc] using foldl_insertDesc_perm cs []

theorem insertDesc_sorted (x : Combatant) (l : List Combatant)
    (h : l.Pairwise (fun a b => b.initiative ≤ a.initiative)) :
    (insertDesc x l).Pairwise (fun a b => b.initiative ≤ a.initiative) := by
  induction l with
  | nil => simp [insertDesc]
  | cons y ys ih =>
    unfold insertDesc
    split
    · next hle =>
      rw [List.pairwise_cons] at h ⊢
      refine ⟨?_, ih h.2⟩
      intro z hz
      have hz2 := (insertDesc_perm x ys).mem_iff.mp hz
      rcases List.mem_cons.mp hz2 with rfl | hz3
      · exact hle
      · exact h.1 z hz3
    · next hgt =>
      rw [List.pairwise_cons] at h
      rw [List.pairwise_cons]
      constructor
      · intro z hz
        rcases List.mem_cons.mp hz with rfl | hz2
        · omega
        · have := h.1 z hz2
          omega
      · rw [List.pairwise_cons]
        exact h

theorem sortByInitiativeDesc_sorted (cs : List Combatant) :
    (sortByInitiativeDesc cs).Pairwise (fun a b => b.initiative ≤ a.initiative) := by
  have main : ∀ (l acc : List Combatant),
      acc.Pairwise (fun a b => b.initiative ≤ a.initiative) →
      (l.foldl (fun a c => insertDesc c a) acc).Pairwise
        (fun a b => b.initiative ≤ a.initiative) := by
    intro l
    induction l with
    | nil => intro acc h; simpa using h
    | cons c rest ih =>
      intro acc h
      exact ih _ (insertDesc_sorted c acc h)
  exact main cs [] (by simp)

theorem buildEnemies_ok (w : WorldState) (rng : Nat → Nat) (names : List String)
    (hall : ∀ n ∈ names, ∃ a, alGet w.actors n = some a ∧ a.current_pos = w.current_pos) :
    ∀ k, ∃ es, buildEnemies w rng (names.map some) k = .ok es ∧ es.length = names.length := by
  induction names with
  | nil => intro k; exact ⟨[], rfl, rfl⟩
  | cons n rest ih =>
    intro k
    obtain ⟨a, ha, hpos⟩ := hall n (List.mem_cons_self _ _)
    obtain ⟨es, hes, hlen⟩ := ih (fun x hx => hall x (List.mem_cons_of_mem _ hx)) (k + 1)
    refine ⟨{ id := n, is_player := false, hp := 50, max_hp := 50,
              weapon_id := none, armor_id := none, initiative := rng k % 20 + 1,
              status_effects := [], temp_defense := 0 } :: es, ?_, ?_⟩
    · show buildEnemies w rng (some n :: rest.map some) k = _
      simp [buildEnemies, ha, hpos, hes]
    · simp [hlen]




/-- Counterexample for C4: starting combat against the single unknown
enemy id `"ghost"` (absent from the actor registry) succeeds but yields
only the player — 1 combatant, not `1 + enemies.len() = 2`: ids missing
from the registry are silently skipped, not counted. -/
theorem start_combat_unknown_enemy_miscount :
    (∃ m, (execute_start_combat WorldState.new { enemy_ids := some [some "ghost"] }
        (fun _ => 0)).2 = .ok m) ∧
    (execute_start_combat WorldState.new { enemy_ids := some [some "ghost"] }
        (fun _ => 0)).1.combat.combatants.length ≠ 1 + 1 := by
  constructor
  · exact ⟨_, rfl⟩
  · decide

/-- C4 (amended): if combat is inactive, `1 + enemies.len()` is within
the cap, and every supplied enemy id is registered in the actor map with
its actor at the current position, then start combat succeeds and
produces exactly `1 + enemies.len()` combatants — the player plus one per
supplied id — sorted by initiative in descending order. -/
theorem start_combat_registered_enemies (w : WorldState) (names : List String) (rng : Nat → Nat)
    (hinactive : w.combat.active = false)
    (hcap : 1 + names.length ≤ w.max_combatants)
    (hall : ∀ n ∈ names, ∃ a, alGet w.actors n = some a ∧ a.current_pos = w.current_pos) :
    (∃ m, (execute_start_combat w { enemy_ids := some (names.map some) } rng).2 = .ok m) ∧
    (execute_start_combat w { enemy_ids := some (names.map some) } rng).1.combat.active = true ∧
    (execute_start_combat w { enemy_ids := some (names.map some) } rng).1.combat.current_turn_index = 0 ∧
    (execute_start_combat w { enemy_ids := some (names.map some) } rng).1.combat.combatants.length
        = 1 + names.length ∧
    (∃ es, buildEnemies w rng (names.map some) 1 = .ok es ∧
      ((execute_start_combat w { enemy_ids := some (names.map some) } rng).1.combat.combatants).Perm
        (playerCombatant rng :: es)) ∧
    ((execute_start_combat w { enemy_ids := some (names.map some) } rng).1.combat.combatants).Pairwise
        (fun a b => b.initiative ≤ a.initiative) := by
  obtain ⟨es, hes, hlen⟩ := buildEnemies_ok w rng names hall 1
  have hnotover : ¬ (w.max_combatants < 1 + (names.map some).length) := by
    rw [List.length_map]
    omega
  have hfst : (execute_start_combat w { enemy_ids := some (names.map some) } rng).1.combat
      = { active := true,
          combatants := sortByInitiativeDesc (playerCombatant rng :: es),
          current_turn_index := 0, round_number := 1 } := by
    simp only [execute_start_combat, hinactive, Bool.false_eq_true, if_false,
      if_neg hnotover, hes]
  have hs : (execute_start_combat w { enemy_ids := some (names.map some) } rng).2
      = .ok s!"Started combat with {(names.map some).length} enemies" := by
    simp only [execute_start_combat, hinactive, Bool.false_eq_true, if_false,
      if_neg hnotover, hes]
  have hsnd : ∃ m, (execute_start_combat w { enemy_ids := some (names.map some) } rng).2
      = .ok m := ⟨_, hs⟩
  refine ⟨hsnd, by rw [hfst], by rw [hfst], ?_, ⟨es, hes, ?_⟩, ?_⟩
  · rw [hfst]
    have := (sortByInitiativeDesc_perm (playerCombatant rng :: es)).length_eq
    simp only [this, List.length_cons, hlen]
    omega
  · rw [hfst]
    exact sortByInitiativeDesc_perm _
  · rw [hfst]
    exact sortByInitiativeDesc_sorted _

/-- The goblin actor of the C4 witness world. -/
def gobActorC4 : Actor :=
  { id := "gob", name := "Goblin", description := "",
    current_pos := (0, 0), inventory := [], money := 0 }

/-- World with one registered actor at the player position, for the C4
witness. -/
def startWorldC4 : WorldState :=
  { WorldState.new with actors := [("gob", gobActorC4)] }

/-- Witness for C4 (amended): starting combat against the one registered
goblin yields exactly two combatants. -/
theorem start_combat_registered_enemies_witness :
    (execute_start_combat startWorldC4 { enemy_ids := some (["gob"].map some) }
        (fun _ => 0)).1.combat.combatants.length = 2 := by
  have h := start_combat_registered_enemies startWorldC4 ["gob"] (fun _ => 0) rfl
    (by decide)
    (by
      intro n hn
      rw [List.mem_singleton] at hn
      subst hn
      exact ⟨gobActorC4, rfl, rfl⟩)
  simpa using h.2.2.2.1

/-! ### C2 and C10: combat-state hazards -/

/-- The player of the C2 failing state. -/
def heroC2 : Combatant :=
  { id := "hero", is_player := true, hp := 100, max_hp := 100,
    weapon_id := none, armor_id := none, initiative := 14,
    status_effects := [], temp_defense := 0 }

/-- First enemy of the C2 failing state. -/
def enemy1C2 : Combatant :=
  { id := "e1", is_player := false, hp := 50, max_hp := 50,
    weapon_id := none, armor_id := none, initiative := 9,
    status_effects := [], temp_defense := 0 }

/-- Second enemy of the C2 failing state; it holds the current turn. -/
def enemy2C2 : Combatant :=
  { id := "e2", is_player := false, hp := 50, max_hp := 50,
    weapon_id := none, armor_id := none, initiative := 4,
    status_effects := [], temp_defense := 0 }

/-- Active three-combatant combat with the turn on the last combatant:
a well-formed state satisfying the claimed invariant. -/
def fleeWorldC2 : WorldState :=
  { WorldState.new with combat :=
      { active := true, combatants := [heroC2, enemy1C2, enemy2C2],
        current_turn_index := 2, round_number := 1 } }

/-- C2 (failing evaluation): a successful flee of the combatant at the
current turn index removes it without adjusting the index, leaving
combat active with the current-turn index equal to the list length —
no longer a valid index.  (`execute_flee` never touches
`current_turn_index`.) -/
theorem flee_leaves_turn_index_out_of_range :
    (∃ m, (execute_flee fleeWorldC2 { actor_id := some "e2" } 10).2 = .ok m) ∧
    (execute_flee fleeWorldC2 { actor_id := some "e2" } 10).1.combat.active = true ∧
    (execute_flee fleeWorldC2 { actor_id := some "e2" } 10).1.combat.combatants.length = 2 ∧
    (execute_flee fleeWorldC2 { actor_id := some "e2" } 10).1.combat.current_turn_index = 2 ∧
    ¬ ((execute_flee fleeWorldC2 { actor_id := some "e2" } 10).1.combat.current_turn_index
        < (execute_flee fleeWorldC2 { actor_id := some "e2" } 10).1.combat.combatants.length) := by
  refine ⟨⟨_, rfl⟩, ?_, ?_, ?_, ?_⟩ <;> decide

/-- The player of the C10 failing state. -/
def playerC10 : Combatant :=
  { id := "player", is_player := true, hp := 100, max_hp := 100,
    weapon_id := none, armor_id := none, initiative := 16,
    status_effects := [], temp_defense := 0 }

/-- A stunned ghoul whose stun has one round left. -/
def ghoulC10 : Combatant :=
  { id := "ghoul", is_player := false, hp := 50, max_hp := 50,
    weapon_id := none, armor_id := none, initiative := 3,
    status_effects := [{ effect_type := .Stunned, duration := 1, severity := 0 }],
    temp_defense := 0 }

/-- Active combat in which the player acts and the last combatant is
stunned with a single-round stun; every attached effect has duration 1. -/
def stunWorldC10 : WorldState :=
  { WorldState.new with combat :=
      { active := true, combatants := [playerC10, ghoulC10],
        current_turn_index := 0, round_number := 1 } }

/-- C10 (failing evaluation): ending the player turn skips the stunned
ghoul, decrementing its stun from 1 to 0 while retaining it, and then
enters the round-wrap branch — whose entry list carries a status effect
of duration 0.  The unguarded `effect.duration - 1` of the source then
underflows `u32` (panic in a debug build, wrap-around in release),
refuting the claimed duration-at-least-1 invariant. -/
theorem end_turn_wrap_entry_duration_zero :
    endTurnWrapEntry stunWorldC10 "player"
      = some [playerC10, { ghoulC10 with
          status_effects := [{ effect_type := .Stunned, duration := 0, severity := 0 }] }] ∧
    (∃ c ∈ [playerC10, { ghoulC10 with
          status_effects := [{ effect_type := .Stunned, duration := 0, severity := 0 }] }],
      ∃ e ∈ c.status_effects, e.duration = 0) := by
  constructor <;> decide

end Adventure
